import Mathlib

/-!
Verification development for the `canis` documentation-governance tooling:
`scripts/check_docs_governance.py` and `scripts/generate_release_notes.py`.

Documents are modelled as lists of lines: a file's text is the concatenation
of each line followed by a newline.  Python strings become Lean `String`s and
all string operations used by the scripts (strip, rstrip, startswith,
endswith, substring membership, splitting) are defined explicitly below over
the underlying character lists.  Python's line-anchored `re.MULTILINE`
searches become per-line matchers applied with `List.findSome?` (first match
wins, as `re.search` scans positions left to right); `\s*` inside a
line-anchored pattern is modelled as same-line whitespace.  The filesystem is
an explicit map from path strings to optional file contents.
-/

namespace Canis

/-- Both ends of a character list stripped of whitespace (Python `str.strip()`). -/
def stripL (l : List Char) : List Char :=
  ((l.dropWhile Char.isWhitespace).reverse.dropWhile Char.isWhitespace).reverse

/-- Trailing whitespace removed (Python `str.rstrip()`). -/
def rstripL (l : List Char) : List Char :=
  (l.reverse.dropWhile Char.isWhitespace).reverse

/-- Python `str.strip()`. -/
def pyStrip (s : String) : String := String.mk (stripL s.data)

/-- Python `str.rstrip()`. -/
def pyRstrip (s : String) : String := String.mk (rstripL s.data)

/-- Python `s.startswith(p)`. -/
def strStartsWith (s p : String) : Bool := p.data.isPrefixOf s.data

/-- Python `s.endswith(p)`. -/
def strEndsWith (s p : String) : Bool := p.data.isSuffixOf s.data

/-- Substring occurrence over character lists (Python `needle in hay`). -/
def listContains (needle : List Char) : List Char → Bool
  | [] => needle.isEmpty
  | c :: t => needle.isPrefixOf (c :: t) || listContains needle t

/-- Python `needle in hay` on strings. -/
def containsStr (hay needle : String) : Bool := listContains needle.data hay.data

/-- Python `str.split(sep)` for a one-character separator. -/
def splitOnChar (sep : Char) : List Char → List (List Char)
  | [] => [[]]
  | c :: t =>
    if c = sep then [] :: splitOnChar sep t
    else
      match splitOnChar sep t with
      | [] => [[c]]
      | h :: r => (c :: h) :: r

/-- Python `str.strip("|")`: both ends stripped of pipe characters. -/
def stripPipes (l : List Char) : List Char :=
  ((l.dropWhile (· = '|')).reverse.dropWhile (· = '|')).reverse

/-- `[cell.strip() for cell in line.strip("|").split("|")]`
(`check_docs_governance.py:128`). -/
def splitCells (line : String) : List String :=
  (splitOnChar '|' (stripPipes line.data)).map (fun c => String.mk (stripL c))

/-- `\d{4}-\d{2}-\d{2}` matched against an entire character list. -/
def isDateShape : List Char → Bool
  | [a, b, c, d, e, f, g, h, i, j] =>
    a.isDigit && b.isDigit && c.isDigit && d.isDigit && e = '-' &&
    f.isDigit && g.isDigit && h = '-' && i.isDigit && j.isDigit
  | _ => false

/-- If `p` is a prefix of `s`, the remainder of `s` after `p`. -/
def restAfter (p s : String) : Option String :=
  if strStartsWith s p then some (String.mk (s.data.drop p.data.length)) else none

/-- One-line match of `^<label>\s*(.+)$` returning `group(1).strip()`:
the pattern matches exactly when the line starts with the label and at
least one character follows it. -/
def labelledValue? (label : String) (line : String) : Option String :=
  match restAfter label line with
  | some rest => if rest.data = [] then none else some (pyStrip rest)
  | none => none

/-- One-line match of `^<label>\s*(\d{4}-\d{2}-\d{2})$` returning `group(1)`:
after the label, optional whitespace, then exactly a date shape up to the
end of the line. -/
def labelledDate? (label : String) (line : String) : Option String :=
  match restAfter label line with
  | some rest =>
    let r := rest.data.dropWhile Char.isWhitespace
    if isDateShape r then some (String.mk r) else none
  | none => none

/-- `^\*\*Current Phase:\*\*\s*(.+)$` (`check_docs_governance.py:50`,
`generate_release_notes.py:33`). -/
def currentPhaseValue? (line : String) : Option String :=
  labelledValue? "**Current Phase:**" line

/-- `^\*\*Last Updated:\*\*\s*(\d{4}-\d{2}-\d{2})$`
(`check_docs_governance.py:53`, `generate_release_notes.py:36`). -/
def lastUpdatedValue? (line : String) : Option String :=
  labelledDate? "**Last Updated:**" line

/-- `^- Current roadmap phase:\s*(.+)$` (`check_docs_governance.py:94`). -/
def alignPhaseValue? (line : String) : Option String :=
  labelledValue? "- Current roadmap phase:" line

/-- `^- Roadmap last updated:\s*(\d{4}-\d{2}-\d{2})$`
(`check_docs_governance.py:99`). -/
def alignDateValue? (line : String) : Option String :=
  labelledDate? "- Roadmap last updated:" line

/-- Shared shape of the section-extraction regexes
`^<heading>\n(?P<body>.*?)(?=<stop>|\Z)` (MULTILINE, DOTALL, lazy body):
find the first line equal to `heading`; the body is every following line
up to (exclusive) the first line satisfying `stop`, or end of text. -/
def extractSection (heading : String) (stop : String → Bool) :
    List String → Option (List String)
  | [] => none
  | l :: ls =>
    if l = heading then some (ls.takeWhile (fun x => !(stop x)))
    else extractSection heading stop ls

/-- Terminator of the Unreleased-section body: a line starting `## [`. -/
def stopUnreleased (l : String) : Bool := strStartsWith l "## ["

/-- Terminator of the Roadmap-Alignment block body: a line starting `### `. -/
def stopSubheading (l : String) : Bool := strStartsWith l "### "

/-- `extract_unreleased`: `^## \[Unreleased\]\n(?P<body>.*?)(?=^## \[|\Z)`
(`check_docs_governance.py:37`, `generate_release_notes.py:21`). -/
def extract_unreleased (changelog : List String) : Option (List String) :=
  extractSection "## [Unreleased]" stopUnreleased changelog

/-- The Roadmap Alignment block inside the Unreleased body:
`^### Roadmap Alignment\n(?P<body>.*?)(?=^### |\Z)`
(`check_docs_governance.py:84`). -/
def extractAlignBlock (unreleased : List String) : Option (List String) :=
  extractSection "### Roadmap Alignment" stopSubheading unreleased

/-! ### Error message strings of `check_docs_governance.py` (apostrophes
written as `\x27`). -/

def missingUnreleasedMsg : String := "CHANGELOG.md is missing a [Unreleased] section"

def missPhaseMsg : String := "Roadmap is missing \x27**Current Phase:**\x27 metadata"

def missDateMsg : String := "Roadmap is missing \x27**Last Updated:**\x27 metadata"

def missingBlockMsg : String :=
  "CHANGELOG [Unreleased] is missing \x27### Roadmap Alignment\x27 block"

def missPhaseLineMsg : String :=
  "Roadmap Alignment block missing \x27- Current roadmap phase:\x27"

def missDateLineMsg : String :=
  "Roadmap Alignment block missing \x27- Roadmap last updated:\x27"

def phaseMismatchMsg (r c : String) : String :=
  "Roadmap/Changelog phase mismatch: roadmap=\x27" ++ r ++ "\x27, changelog=\x27" ++ c ++ "\x27"

def dateMismatchMsg (r c : String) : String :=
  "Roadmap/Changelog last-updated mismatch: roadmap=\x27" ++ r ++ "\x27, changelog=\x27" ++ c ++ "\x27"

def invalidPlanMsg (cell : String) : String :=
  "Invalid plan path cell in PLAN_LIFECYCLE.md: " ++ cell

def invalidStatusMsg (status planRel : String) : String :=
  "Invalid lifecycle status \x27" ++ status ++ "\x27 for plan \x27" ++ planRel ++
    "\x27 (allowed: Active, Archived, Superseded)"

def missingPlanFileMsg (planRel : String) : String :=
  "Lifecycle entry references missing file: docs/plans/" ++ planRel

def supMarkerMsg (planRel : String) : String :=
  "Superseded plan missing lifecycle marker: docs/plans/" ++ planRel

def mustDefineMsg (planRel : String) : String :=
  "Superseded plan must define \x27Superseded By\x27 target: docs/plans/" ++ planRel

def targetMissingMsg (supRel : String) : String :=
  "Superseded target does not exist: docs/plans/" ++ supRel

def unrefMsg (supRel planRel : String) : String :=
  "Superseded source missing explicit target reference \x27" ++ supRel ++
    "\x27: docs/plans/" ++ planRel

def activeMarkerMsg (planRel : String) : String :=
  "Active plan missing lifecycle marker: docs/plans/" ++ planRel

def emptyHistoryMsg : String :=
  "PLAN_LIFECYCLE.md should include at least one Superseded entry"

def noRowsMsg : String := "PLAN_LIFECYCLE.md must define at least one lifecycle row"

/-- `parse_roadmap_metadata` of the governance script
(`check_docs_governance.py:49-67`): returns the phase value, the date value
(empty string when absent), and the errors it appends. -/
def parse_roadmap_metadata (roadmap : List String) : String × String × List String :=
  let p := roadmap.findSome? currentPhaseValue?
  let d := roadmap.findSome? lastUpdatedValue?
  (p.getD "", d.getD "",
    (if p.isNone then [missPhaseMsg] else []) ++ (if d.isNone then [missDateMsg] else []))

/-- `validate_roadmap_alignment_block` (`check_docs_governance.py:78-119`). -/
def validate_roadmap_alignment_block (roadmapPhase roadmapLastUpdated : String)
    (unreleased : List String) : List String :=
  match extractAlignBlock unreleased with
  | none => [missingBlockMsg]
  | some block =>
    let p := block.findSome? alignPhaseValue?
    let d := block.findSome? alignDateValue?
    (if p.isNone then [missPhaseLineMsg] else []) ++
    (if d.isNone then [missDateLineMsg] else []) ++
    (match p with
     | some cp => if cp ≠ roadmapPhase then [phaseMismatchMsg roadmapPhase cp] else []
     | none => []) ++
    (match d with
     | some cd =>
       if cd ≠ roadmapLastUpdated then [dateMismatchMsg roadmapLastUpdated cd] else []
     | none => [])

/-- `extract_unreleased` as used by the governance driver: the body (empty
on failure, mirroring the returned `""`) together with the appended error. -/
def govUnreleased (changelog : List String) : List String × List String :=
  match extract_unreleased changelog with
  | none => ([], [missingUnreleasedMsg])
  | some body => (body, [])

/-- The roadmap/changelog portion of the governance `main`
(`check_docs_governance.py:233-242`), given that both files were read
successfully: metadata errors, then extraction errors, then — only when
phase, date and unreleased body are all truthy — the alignment errors. -/
def mainRoadmapChangelog (roadmap changelog : List String) : List String :=
  let m := parse_roadmap_metadata roadmap
  let u := govUnreleased changelog
  m.2.2 ++ u.2 ++
    (if m.1 ≠ "" ∧ m.2.1 ≠ "" ∧ u.1 ≠ [] then
      validate_roadmap_alignment_block m.1 m.2.1 u.1
    else [])

/-- `parse_code_path` (`check_docs_governance.py:137-143`). -/
def parse_code_path (cell : String) : Option String :=
  let c := pyStrip cell
  if c = "-" then some "-"
  else if strStartsWith c "`" && strEndsWith c "`" then
    some (String.mk (c.data.drop 1).dropLast)
  else none

/-- `set(cells[0]) == {"-"}`: a non-empty cell consisting solely of dashes. -/
def isDashCell (c : String) : Bool := !c.data.isEmpty && c.data.all (· = '-')

/-- The loop body of `parse_table_rows` (`check_docs_governance.py:122-134`)
for one line of the markdown: the kept row, if any. -/
def tableRowOf (raw : String) : Option (List String) :=
  let line := pyStrip raw
  if !(strStartsWith line "|") then none
  else
    let cells := splitCells line
    if cells.length < 4 then none
    else if cells.headD "" = "Plan" ∨ isDashCell (cells.headD "") then none
    else some (cells.take 4)

/-- `parse_table_rows` (`check_docs_governance.py:122-134`). -/
def parse_table_rows (markdown : List String) : List (List String) :=
  markdown.filterMap tableRowOf

/-- Modelled from the claim wording for `parse_table_rows` after amendment:
a pipe-prefixed candidate is rejected when it has fewer than 4 cells, when
its first cell equals the header label, or when its first cell consists
solely of dashes; otherwise its first 4 trimmed cells are yielded. -/
def claimTableRow (raw : String) : Option (List String) :=
  let line := pyStrip raw
  if strStartsWith line "|" then
    let cells := splitCells line
    if cells.length < 4 then none
    else if cells.headD "" = "Plan" then none
    else if isDashCell (cells.headD "") then none
    else some (cells.take 4)
  else none

def LIFECYCLE_STATUSES : List String := ["Active", "Superseded", "Archived"]

/-- Errors appended for a single lifecycle table row
(`check_docs_governance.py:158-208`).  `fs` maps a path relative to
`docs/plans/` to the file's text when the file exists. -/
def rowErrors (fs : String → Option String) (row : List String) : List String :=
  match row with
  | [planCell, status, supersededByCell, _notes] =>
    match parse_code_path planCell with
    | none => [invalidPlanMsg planCell]
    | some planRel =>
      if planRel = "" ∨ planRel = "-" then [invalidPlanMsg planCell]
      else
        let statusErrs :=
          if status ∈ LIFECYCLE_STATUSES then [] else [invalidStatusMsg status planRel]
        match fs planRel with
        | none => statusErrs ++ [missingPlanFileMsg planRel]
        | some planText =>
          let supErrs :=
            if status = "Superseded" then
              (if containsStr planText "**Lifecycle:** Superseded" then []
               else [supMarkerMsg planRel]) ++
              (match parse_code_path supersededByCell with
               | none => [mustDefineMsg planRel]
               | some supRel =>
                 if supRel = "" ∨ supRel = "-" then [mustDefineMsg planRel]
                 else
                   (if (fs supRel).isNone then [targetMissingMsg supRel] else []) ++
                   (if containsStr planText supRel then [] else [unrefMsg supRel planRel]))
            else []
          let activeErrs :=
            if status = "Active" ∧ ¬containsStr planText "**Lifecycle:** Active" then
              [activeMarkerMsg planRel]
            else []
          statusErrs ++ supErrs ++ activeErrs
  | _ => []

/-- Whether a row increments `superseded_count`
(`check_docs_governance.py:179-180`): the plan-path cell parses, the plan
file exists, and the status is `Superseded`. -/
def rowSup (fs : String → Option String) (row : List String) : Bool :=
  match row with
  | [planCell, status, _supersededByCell, _notes] =>
    match parse_code_path planCell with
    | none => false
    | some planRel =>
      if planRel = "" ∨ planRel = "-" then false
      else (fs planRel).isSome && status = "Superseded"
  | _ => false

/-- The per-row loop plus the final empty-history check of
`validate_plan_lifecycle` (`check_docs_governance.py:156-211`). -/
def validateLifecycleRows (fs : String → Option String)
    (rows : List (List String)) : List String :=
  (rows.map (rowErrors fs)).flatten ++
    (if rows.countP (rowSup fs) = 0 then [emptyHistoryMsg] else [])

/-- `validate_plan_lifecycle` (`check_docs_governance.py:146-211`):
`lifecycle` is the registry file's lines when the file exists. -/
def validate_plan_lifecycle (lifecycle : Option (List String))
    (fs : String → Option String) : List String :=
  match lifecycle with
  | none => ["Missing required file: docs/plans/PLAN_LIFECYCLE.md"]
  | some text =>
    if text = [] then []
    else
      let rows := parse_table_rows text
      if rows = [] then [noRowsMsg]
      else validateLifecycleRows fs rows

/-! ### `generate_release_notes.py` -/

def SECTIONS : List String :=
  ["Added", "Changed", "Deprecated", "Removed", "Fixed", "Security"]

/-- `re.match(r"^###\s+(.+)$", line)` with `group(1).strip()`
(`generate_release_notes.py:54-56`): the line must start with three markers
followed by a whitespace character and at least one further character. -/
def headingOf (l : String) : Option String :=
  match l.data with
  | '#' :: '#' :: '#' :: c :: rest =>
    if c.isWhitespace ∧ rest ≠ [] then some (String.mk (stripL (c :: rest))) else none
  | _ => none

/-- `re.match(r"^\s*-\s+", line)` (`generate_release_notes.py:60`). -/
def isBullet (l : String) : Bool :=
  match l.data.dropWhile Char.isWhitespace with
  | '-' :: c :: _ => c.isWhitespace
  | _ => false

/-- Appends `line` to the bucket of `sec` (`items[current_section].append`). -/
def updateItems (items : String → List String) (sec line : String) :
    String → List String :=
  fun k => if k = sec then items k ++ [line] else items k

/-- The loop of `collect_section_items` (`generate_release_notes.py:52-61`). -/
def collectLoop (cur : Option String) (items : String → List String) :
    List String → (String → List String)
  | [] => items
  | raw :: rest =>
    let line := pyRstrip raw
    match headingOf line with
    | some h => collectLoop (if h ∈ SECTIONS then some h else none) items rest
    | none =>
      match cur with
      | some sec =>
        if isBullet line then collectLoop cur (updateItems items sec line) rest
        else collectLoop cur items rest
      | none => collectLoop cur items rest

/-- `collect_section_items` (`generate_release_notes.py:48-63`), as the map
from a category name to its collected bullet lines (absent keys map to the
empty bucket, matching `section_items.get(section, [])`). -/
def collect_section_items (unreleased : List String) : String → List String :=
  collectLoop none (fun _ => []) unreleased

/-- The lines appended for one category (`generate_release_notes.py:83-90`). -/
def sectionBlock (items : String → List String) (sec : String) : List String :=
  ("### " ++ sec) :: (if items sec = [] then ["- None"] else items sec) ++ [""]

/-- The fixed milestone and summary preamble
(`generate_release_notes.py:72-81`). -/
def preambleLines (version roadmapPhase roadmapLastUpdated : String) : List String :=
  ["## Milestone",
   "- Version: " ++ version,
   "- Roadmap phase: " ++ roadmapPhase,
   "- Roadmap last updated: " ++ roadmapLastUpdated,
   "",
   "## Release Summary",
   "- Notes generated from `CHANGELOG.md` `[Unreleased]` entries.",
   "- Sections follow Keep a Changelog categories.",
   ""]

/-- The full `lines` list built by `render_release_notes`. -/
def renderLines (version roadmapPhase roadmapLastUpdated : String)
    (items : String → List String) : List String :=
  preambleLines version roadmapPhase roadmapLastUpdated ++
    (SECTIONS.map (sectionBlock items)).flatten

/-- Python `"\n".join(lines)`. -/
def joinNL : List String → String
  | [] => ""
  | [l] => l
  | l :: ls => l ++ "\n" ++ joinNL ls

/-- `render_release_notes` (`generate_release_notes.py:66-92`):
`"\n".join(lines).rstrip() + "\n"`. -/
def render_release_notes (version roadmapPhase roadmapLastUpdated : String)
    (items : String → List String) : String :=
  pyRstrip (joinNL (renderLines version roadmapPhase roadmapLastUpdated items)) ++ "\n"

def metaIncompleteMsg : String :=
  "Roadmap metadata is incomplete (Current Phase / Last Updated)"

/-- The generator entry point (`generate_release_notes.py:95-131`) up to the
output write: reads both files, extracts the Unreleased body, parses both
roadmap metadata fields, and only when every precondition holds produces the
output path together with the complete rendered text; each raised exception
becomes `Except.error` and produces no output at all. -/
def gen_main (fs : String → Option (List String))
    (version changelogPath roadmapPath outputPath : String) :
    Except String (String × String) :=
  match fs changelogPath with
  | none => .error ("Missing file: " ++ changelogPath)
  | some changelog =>
    match fs roadmapPath with
    | none => .error ("Missing file: " ++ roadmapPath)
    | some roadmap =>
      match extract_unreleased changelog with
      | none => .error missingUnreleasedMsg
      | some unreleased =>
        match roadmap.findSome? currentPhaseValue?,
            roadmap.findSome? lastUpdatedValue? with
        | some roadmapPhase, some roadmapLastUpdated =>
          .ok (outputPath,
            render_release_notes version roadmapPhase roadmapLastUpdated
              (collect_section_items unreleased))
        | none, _ => .error metaIncompleteMsg
        | _, none => .error metaIncompleteMsg

/-! ### Spec-side comparison definitions -/

/-- Modelled from the spec: a markdown heading's rank is the number of
leading marker characters (`#`), fewer markers meaning higher rank. -/
def headingRank (l : String) : Option Nat :=
  let n := (l.data.takeWhile (· = '#')).length
  if n = 0 then none else some n

/-- Modelled from the spec wording of §4.1/C2: the body extends up to the
next line that is itself a heading of rank equal to or higher than
(numerically at most) `rank`. -/
def specSectionBody (rank : Nat) (ls : List String) : List String :=
  ls.takeWhile (fun l =>
    match headingRank l with
    | some k => decide (rank < k)
    | none => true)

/-! ### Auxiliary definitions used by the theorems -/

/-- The lines following the first occurrence of `heading`. -/
def suffixAfter (heading : String) : List String → Option (List String)
  | [] => none
  | l :: ls => if l = heading then some ls else suffixAfter heading ls

/-- The head of a character list is a non-whitespace character. -/
def headNonWS : List Char → Bool
  | [] => false
  | c :: _ => !c.isWhitespace

/-- The string is non-empty and its final character is not whitespace. -/
def endsOk (s : String) : Bool := headNonWS s.data.reverse

/-- Number of newline characters at the very end of the string. -/
def trailingNLCount (s : String) : Nat :=
  (s.data.reverse.takeWhile (fun c => c = '\n')).length

/-- `seg` occurs as a contiguous segment of `l`. -/
def segIn (seg l : List String) : Prop := ∃ a b, l = a ++ (seg ++ b)

/-! ### Concrete fixtures for counterexamples and witnesses -/

/-- Plan files for the C1 counterexample: the target cites the source, the
source does not cite the target. -/
def fsClaim1 : String → Option String := fun p =>
  if p = "a.md" then some "# A **Lifecycle:** Superseded end"
  else if p = "b.md" then some "replaces docs/plans/a.md (a.md)"
  else none

/-- Plan files for the C1 witness: the source cites the target. -/
def fsClaim1b : String → Option String := fun p =>
  if p = "a.md" then some "**Lifecycle:** Superseded by docs/plans/b.md"
  else if p = "b.md" then some "# B"
  else none

/-- A single existing plan file lacking the Active marker (C5 witness). -/
def fsClaim5 : String → Option String := fun p =>
  if p = "a.md" then some "# Plan A" else none

/-- Input files for the C7 witness: a changelog with no Unreleased section
and a roadmap with no metadata. -/
def fsClaim7 : String → Option (List String) := fun p =>
  if p = "CHANGELOG.md" then some ["# Changelog", "nothing released"]
  else if p = "roadmap.md" then some ["no metadata here"]
  else none

/-! ### General helper lemmas -/

theorem strDataAppend (a b : String) : (a ++ b).data = a.data ++ b.data := by
  cases a; cases b; rfl

theorem mkData (s : String) : String.mk s.data = s := by
  cases s; rfl

theorem dropWhileHead? {α : Type} (p : α → Bool) (l : List α) (x : α)
    (h : (l.dropWhile p).head? = some x) : p x = false := by
  induction l with
  | nil => simp [List.dropWhile] at h
  | cons a t ih =>
    by_cases hp : p a
    · rw [List.dropWhile_cons_of_pos hp] at h
      exact ih h
    · rw [List.dropWhile_cons_of_neg hp] at h
      simp at h
      subst h
      simpa using hp

theorem filterMapEqMap {α β : Type} (f : α → Option β) (dflt : β) :
    ∀ l : List α, (∀ a ∈ l, (f a).isSome = true) →
      l.filterMap f = l.map (fun a => (f a).getD dflt) := by
  intro l
  induction l with
  | nil => intro _; rfl
  | cons a t ih =>
    intro h
    have ha := h a (by simp)
    rcases hfa : f a with _ | v
    · rw [hfa] at ha; simp at ha
    · simp only [List.filterMap_cons, List.map_cons, hfa]
      rw [ih (fun x hx => h x (by simp [hx]))]
      rfl

/-! ### C4: `parse_table_rows` rejection tests and yields -/

theorem tableRowOfEqClaim (raw : String) : tableRowOf raw = claimTableRow raw := by
  unfold tableRowOf claimTableRow
  dsimp only
  split_ifs <;> simp_all

/-- C4 (counterexample): a pipe-prefixed line with 4 cells whose first cell
is all dashes but whose other cells are not dashes is rejected by the code,
while the claim (rejection only when every character across all cells is a
dash) would keep it. -/
theorem claim4_counterexample :
    strStartsWith (pyStrip "|---|x|y|z|") "|" = true ∧
    splitCells (pyStrip "|---|x|y|z|") = ["---", "x", "y", "z"] ∧
    (["---", "x", "y", "z"].all (fun c => c.data.all (· = '-'))) = false ∧
    ¬(["---", "x", "y", "z"].headD "" = "Plan") ∧
    parse_table_rows ["|---|x|y|z|"] = [] := by decide

/-- C4 (amended): `parse_table_rows` yields, in document order, exactly the
pipe-prefixed candidate lines passing three rejection tests — fewer than 4
cells, first cell equal to the header label, or first cell consisting solely
of dashes — keeping the first 4 trimmed cells; hence a table with one header
row, one separator row, and N surviving data rows yields exactly N rows in
original order. -/
theorem claim4_parse_rows :
    (∀ md : List String, parse_table_rows md = md.filterMap claimTableRow) ∧
    (∀ (hdr sep : String) (ds : List String),
      (splitCells (pyStrip hdr)).headD "" = "Plan" →
      isDashCell ((splitCells (pyStrip sep)).headD "") = true →
      (∀ d ∈ ds, (tableRowOf d).isSome = true) →
      parse_table_rows (hdr :: sep :: ds) =
        ds.map (fun d => (tableRowOf d).getD []) ∧
      (parse_table_rows (hdr :: sep :: ds)).length = ds.length) := by
  have hhdr : ∀ s : String, (splitCells (pyStrip s)).headD "" = "Plan" →
      tableRowOf s = none := by
    intro s h
    unfold tableRowOf
    dsimp only
    split_ifs <;> simp_all
  have hsep : ∀ s : String, isDashCell ((splitCells (pyStrip s)).headD "") = true →
      tableRowOf s = none := by
    intro s h
    unfold tableRowOf
    dsimp only
    split_ifs <;> simp_all
  refine ⟨fun md => List.filterMap_congr (fun x _ => tableRowOfEqClaim x), ?_⟩
  intro hdr sep ds h1 h2 h3
  have hrows : parse_table_rows (hdr :: sep :: ds) =
      ds.map (fun d => (tableRowOf d).getD []) := by
    unfold parse_table_rows
    rw [List.filterMap_cons_none (hhdr hdr h1), List.filterMap_cons_none (hsep sep h2)]
    exact filterMapEqMap tableRowOf [] ds h3
  exact ⟨hrows, by rw [hrows, List.length_map]⟩

/-- C4 witness: a concrete table with a header row, a separator row and two
data rows yields exactly the two data rows in order. -/
theorem claim4_witness :
    parse_table_rows
      ["| Plan | Status | Superseded By | Notes |",
       "| --- | --- | --- | --- |",
       "| `a.md` | Active | - | n |",
       "| `b.md` | Superseded | `c.md` | n |"] =
      [["`a.md`", "Active", "-", "n"], ["`b.md`", "Superseded", "`c.md`", "n"]] ∧
    (parse_table_rows
      ["| Plan | Status | Superseded By | Notes |",
       "| --- | --- | --- | --- |",
       "| `a.md` | Active | - | n |",
       "| `b.md` | Superseded | `c.md` | n |"]).length = 2 := by
  have h := claim4_parse_rows.2 "| Plan | Status | Superseded By | Notes |"
    "| --- | --- | --- | --- |"
    ["| `a.md` | Active | - | n |", "| `b.md` | Superseded | `c.md` | n |"]
    (by decide) (by decide) (by decide)
  exact ⟨h.1.trans (by decide), h.2.trans (by decide)⟩

/-! ### C9: every parsed row has exactly 4 cells -/

theorem tableRowOfLength (raw : String) (r : List String)
    (h : tableRowOf raw = some r) : r.length = 4 := by
  unfold tableRowOf at h
  dsimp only at h
  split_ifs at h with h1 h2 h3
  injection h with h
  subst h
  rw [List.length_take]
  omega

/-- C9: every row returned by `parse_table_rows` has exactly 4 cells, and
for candidate lines (pipe-prefixed, at least 4 cells) whose first 4 trimmed
cells agree, the parser yields the same row — content beyond the fourth
column cannot influence the result. -/
theorem claim9_row_width :
    (∀ (md : List String) (r : List String), r ∈ parse_table_rows md → r.length = 4) ∧
    (∀ l₁ l₂ : String,
      strStartsWith (pyStrip l₁) "|" = true → strStartsWith (pyStrip l₂) "|" = true →
      4 ≤ (splitCells (pyStrip l₁)).length → 4 ≤ (splitCells (pyStrip l₂)).length →
      (splitCells (pyStrip l₁)).take 4 = (splitCells (pyStrip l₂)).take 4 →
      tableRowOf l₁ = tableRowOf l₂) := by
  constructor
  · intro md r hr
    rw [parse_table_rows, List.mem_filterMap] at hr
    obtain ⟨a, _, ha⟩ := hr
    exact tableRowOfLength a r ha
  · intro l₁ l₂ hs1 hs2 hl1 hl2 htake
    have hhead : (splitCells (pyStrip l₁)).headD "" = (splitCells (pyStrip l₂)).headD "" := by
      rcases hc1 : splitCells (pyStrip l₁) with _ | ⟨a, t⟩
      · rw [hc1] at hl1; simp at hl1
      · rcases hc2 : splitCells (pyStrip l₂) with _ | ⟨b, u⟩
        · rw [hc2] at hl2; simp at hl2
        · rw [hc1, hc2] at htake
          simp only [List.take_succ_cons, List.cons.injEq] at htake
          simp [htake.1]
    unfold tableRowOf
    simp only [hs1, hs2, Bool.not_true, if_true]
    have h41 : ¬((splitCells (pyStrip l₁)).length < 4) := by omega
    have h42 : ¬((splitCells (pyStrip l₂)).length < 4) := by omega
    simp only [h41, h42, if_false, hhead, htake]

/-- C9 witness: two candidate rows differing only after the fourth column
yield the same row, which has exactly 4 cells. -/
theorem claim9_witness :
    tableRowOf "| a | b | c | d | EXTRA1 |" = tableRowOf "| a | b | c | d | EXTRA2 |" ∧
    (["`a.md`", "Active", "-", "n"] : List String).length = 4 :=
  ⟨claim9_row_width.2 _ _ (by decide) (by decide) (by decide) (by decide) (by decide),
   claim9_row_width.1 ["| `a.md` | Active | - | n |"] _ (by decide)⟩


/-! ### C8: malformed dates are treated as absent metadata -/

/-- C8: when no roadmap line carries a `Last Updated` value of the exact
`YYYY-MM-DD` shape (in particular when trailing text follows the date), the
parser returns the empty string for the date, the caller-visible error list
reports the missing-metadata error, and the only errors this parser ever
produces are the two missing-metadata messages — there is no distinct
malformed-date error (and, being a total function, the parser never
raises). -/
theorem claim8_malformed_date (roadmap : List String)
    (h : ∀ l ∈ roadmap, lastUpdatedValue? l = none) :
    (parse_roadmap_metadata roadmap).2.1 = "" ∧
    missDateMsg ∈ (parse_roadmap_metadata roadmap).2.2 ∧
    ∀ e ∈ (parse_roadmap_metadata roadmap).2.2, e = missPhaseMsg ∨ e = missDateMsg := by
  have hd : roadmap.findSome? lastUpdatedValue? = none :=
    List.findSome?_eq_none_iff.mpr h
  unfold parse_roadmap_metadata
  rw [hd]
  refine ⟨rfl, ?_, ?_⟩
  · by_cases hp : (roadmap.findSome? currentPhaseValue?).isNone <;> simp [hp]
  · intro e he
    by_cases hp : (roadmap.findSome? currentPhaseValue?).isNone <;>
      simp [hp] at he <;> tauto

/-- C8 witness: a roadmap whose `Last Updated` line carries trailing text
after the date is reported as missing the metadata field. -/
theorem claim8_witness :
    (parse_roadmap_metadata
      ["**Current Phase:** M3", "**Last Updated:** 2024-05-01 (draft)"]).2.1 = "" ∧
    missDateMsg ∈ (parse_roadmap_metadata
      ["**Current Phase:** M3", "**Last Updated:** 2024-05-01 (draft)"]).2.2 :=
  ⟨(claim8_malformed_date _ (by decide)).1, (claim8_malformed_date _ (by decide)).2.1⟩

/-! ### C3: alignment mismatch errors, one per differing field -/

/-- C3: when the roadmap metadata, the Unreleased section, the Roadmap
Alignment block and both alignment lines are present, the validator returns
no errors when both values match, and exactly one mismatch error per
differing field — never both conflated into one message. -/
theorem claim3_alignment (roadmap changelog : List String)
    (phase date : String) (unrel block : List String) (cp cd : String)
    (hp : roadmap.findSome? currentPhaseValue? = some phase)
    (hd : roadmap.findSome? lastUpdatedValue? = some date)
    (_hu : extract_unreleased changelog = some unrel)
    (hb : extractAlignBlock unrel = some block)
    (hcp : block.findSome? alignPhaseValue? = some cp)
    (hcd : block.findSome? alignDateValue? = some cd) :
    (parse_roadmap_metadata roadmap).1 = phase ∧
    (parse_roadmap_metadata roadmap).2.1 = date ∧
    (cp = phase ∧ cd = date →
      validate_roadmap_alignment_block phase date unrel = []) ∧
    (cp ≠ phase ∧ cd = date →
      validate_roadmap_alignment_block phase date unrel = [phaseMismatchMsg phase cp]) ∧
    (cp = phase ∧ cd ≠ date →
      validate_roadmap_alignment_block phase date unrel = [dateMismatchMsg date cd]) ∧
    (cp ≠ phase ∧ cd ≠ date →
      validate_roadmap_alignment_block phase date unrel =
        [phaseMismatchMsg phase cp, dateMismatchMsg date cd]) := by
  refine ⟨by simp [parse_roadmap_metadata, hp], by simp [parse_roadmap_metadata, hd], ?_, ?_, ?_, ?_⟩ <;>
    rintro ⟨h1, h2⟩ <;>
    simp [validate_roadmap_alignment_block, hb, hcp, hcd, h1, h2]

/-- C3 witness: matching values yield no errors; a differing phase yields
exactly the phase-mismatch error. -/
theorem claim3_witness :
    validate_roadmap_alignment_block "M3" "2024-05-01"
      ["### Roadmap Alignment", "- Current roadmap phase: M3",
       "- Roadmap last updated: 2024-05-01"] = [] ∧
    validate_roadmap_alignment_block "M3" "2024-05-01"
      ["### Roadmap Alignment", "- Current roadmap phase: M2",
       "- Roadmap last updated: 2024-05-01"] = [phaseMismatchMsg "M3" "M2"] := by
  constructor
  · exact (claim3_alignment ["**Current Phase:** M3", "**Last Updated:** 2024-05-01"]
      ["## [Unreleased]", "### Roadmap Alignment", "- Current roadmap phase: M3",
       "- Roadmap last updated: 2024-05-01"]
      "M3" "2024-05-01"
      ["### Roadmap Alignment", "- Current roadmap phase: M3",
       "- Roadmap last updated: 2024-05-01"]
      ["- Current roadmap phase: M3", "- Roadmap last updated: 2024-05-01"]
      "M3" "2024-05-01"
      (by decide) (by decide) (by decide) (by decide) (by decide) (by decide)).2.2.1
      ⟨rfl, rfl⟩
  · exact (claim3_alignment ["**Current Phase:** M3", "**Last Updated:** 2024-05-01"]
      ["## [Unreleased]", "### Roadmap Alignment", "- Current roadmap phase: M2",
       "- Roadmap last updated: 2024-05-01"]
      "M3" "2024-05-01"
      ["### Roadmap Alignment", "- Current roadmap phase: M2",
       "- Roadmap last updated: 2024-05-01"]
      ["- Current roadmap phase: M2", "- Roadmap last updated: 2024-05-01"]
      "M2" "2024-05-01"
      (by decide) (by decide) (by decide) (by decide) (by decide) (by decide)).2.2.2.1
      ⟨by decide, rfl⟩

/-! ### C10: the driver gates the alignment check -/

/-- C10: the governance driver runs the roadmap/changelog alignment check
only when the parsed phase, the parsed date and the extracted Unreleased
body are all non-empty; whenever any of them is empty or absent the
reported errors are exactly the metadata and extraction errors, so no
alignment error of any kind (not even a missing-block error) appears. -/
theorem claim10_driver_gate (roadmap changelog : List String) :
    ((parse_roadmap_metadata roadmap).1 = "" ∨ (parse_roadmap_metadata roadmap).2.1 = "" ∨
        (govUnreleased changelog).1 = [] →
      mainRoadmapChangelog roadmap changelog =
        (parse_roadmap_metadata roadmap).2.2 ++ (govUnreleased changelog).2) ∧
    ((parse_roadmap_metadata roadmap).1 ≠ "" → (parse_roadmap_metadata roadmap).2.1 ≠ "" →
      (govUnreleased changelog).1 ≠ [] →
      mainRoadmapChangelog roadmap changelog =
        (parse_roadmap_metadata roadmap).2.2 ++ (govUnreleased changelog).2 ++
          validate_roadmap_alignment_block (parse_roadmap_metadata roadmap).1
            (parse_roadmap_metadata roadmap).2.1 (govUnreleased changelog).1) := by
  unfold mainRoadmapChangelog
  dsimp only
  constructor
  · intro hgate
    rw [if_neg (by tauto)]
    simp
  · intro h1 h2 h3
    rw [if_pos ⟨h1, h2, h3⟩]

/-- C10 witness: an existing Unreleased section with an empty body blocks
the alignment check entirely — no missing-block error is reported. -/
theorem claim10_witness :
    mainRoadmapChangelog ["**Current Phase:** M3", "**Last Updated:** 2024-05-01"]
      ["## [Unreleased]", "## [v0.1.0]"] = [] :=
  ((claim10_driver_gate ["**Current Phase:** M3", "**Last Updated:** 2024-05-01"]
    ["## [Unreleased]", "## [v0.1.0]"]).1 (Or.inr (Or.inr (by decide)))).trans (by decide)


/-! ### Lifecycle rows: C1 and C5 -/

theorem headNe (s : String) (c : Char) (h : s.data.head? = some c) (hc : ¬c = 'P') :
    s ≠ emptyHistoryMsg := by
  intro he
  rw [he] at h
  have h2 : some 'P' = some c := Eq.trans (by rfl) h
  injection h2 with h3
  exact hc h3.symm

/-- Every error a single lifecycle row can produce is one of the eight
per-row message shapes. -/
theorem mem_rowErrors_shape (fs : String → Option String) (row : List String)
    (e : String) (he : e ∈ rowErrors fs row) :
    (∃ c, e = invalidPlanMsg c) ∨ (∃ a b, e = invalidStatusMsg a b) ∨
    (∃ a, e = missingPlanFileMsg a) ∨ (∃ a, e = supMarkerMsg a) ∨
    (∃ a, e = mustDefineMsg a) ∨ (∃ a, e = targetMissingMsg a) ∨
    (∃ a b, e = unrefMsg a b) ∨ (∃ a, e = activeMarkerMsg a) := by
  rcases row with _ | ⟨pc, row⟩
  · simp [rowErrors] at he
  rcases row with _ | ⟨st, row⟩
  · simp [rowErrors] at he
  rcases row with _ | ⟨sb, row⟩
  · simp [rowErrors] at he
  rcases row with _ | ⟨nt, row⟩
  · simp [rowErrors] at he
  rcases row with _ | ⟨x, row⟩
  swap
  · simp [rowErrors] at he
  simp only [rowErrors] at he
  rcases hp : parse_code_path pc with _ | pr <;> simp only [hp] at he
  · simp at he
    exact Or.inl ⟨pc, he⟩
  by_cases hpr : pr = "" ∨ pr = "-"
  · rw [if_pos hpr] at he
    simp at he
    exact Or.inl ⟨pc, he⟩
  rw [if_neg hpr] at he
  rcases hf : fs pr with _ | ptext <;> simp only [hf] at he
  · rcases List.mem_append.mp he with h1 | h1
    · by_cases hst : st ∈ LIFECYCLE_STATUSES
      · rw [if_pos hst] at h1
        simp at h1
      · rw [if_neg hst] at h1
        simp at h1
        exact Or.inr (Or.inl ⟨st, pr, h1⟩)
    · simp at h1
      exact Or.inr (Or.inr (Or.inl ⟨pr, h1⟩))
  · rcases List.mem_append.mp he with h1 | hact
    · rcases List.mem_append.mp h1 with hstat | hsup
      · by_cases hst : st ∈ LIFECYCLE_STATUSES
        · rw [if_pos hst] at hstat
          simp at hstat
        · rw [if_neg hst] at hstat
          simp at hstat
          exact Or.inr (Or.inl ⟨st, pr, hstat⟩)
      · by_cases hs2 : st = "Superseded"
        · rw [if_pos hs2] at hsup
          rcases List.mem_append.mp hsup with hm | hrest
          · by_cases hc : containsStr ptext "**Lifecycle:** Superseded" = true
            · rw [if_pos hc] at hm
              simp at hm
            · rw [if_neg hc] at hm
              simp at hm
              exact Or.inr (Or.inr (Or.inr (Or.inl ⟨pr, hm⟩)))
          · rcases hq : parse_code_path sb with _ | sr <;> simp only [hq] at hrest
            · simp at hrest
              exact Or.inr (Or.inr (Or.inr (Or.inr (Or.inl ⟨pr, hrest⟩))))
            · by_cases hsr : sr = "" ∨ sr = "-"
              · rw [if_pos hsr] at hrest
                simp at hrest
                exact Or.inr (Or.inr (Or.inr (Or.inr (Or.inl ⟨pr, hrest⟩))))
              · rw [if_neg hsr] at hrest
                rcases List.mem_append.mp hrest with ht | hu
                · by_cases hn : (fs sr).isNone = true
                  · rw [if_pos hn] at ht
                    simp at ht
                    exact Or.inr (Or.inr (Or.inr (Or.inr (Or.inr (Or.inl ⟨sr, ht⟩)))))
                  · rw [if_neg hn] at ht
                    simp at ht
                · by_cases hcc : containsStr ptext sr = true
                  · rw [if_pos hcc] at hu
                    simp at hu
                  · rw [if_neg hcc] at hu
                    simp at hu
                    exact Or.inr (Or.inr (Or.inr (Or.inr (Or.inr (Or.inr (Or.inl
                      ⟨sr, pr, hu⟩))))))
        · rw [if_neg hs2] at hsup
          simp at hsup
    · by_cases ha : st = "Active" ∧ ¬containsStr ptext "**Lifecycle:** Active" = true
      · rw [if_pos ha] at hact
        simp at hact
        exact Or.inr (Or.inr (Or.inr (Or.inr (Or.inr (Or.inr (Or.inr ⟨pr, hact⟩))))))
      · rw [if_neg ha] at hact
        simp at hact

/-- No per-row error equals the aggregate empty-history message (their first
characters differ). -/
theorem rowErrorsNeEmptyHistory (fs : String → Option String) (row : List String)
    (e : String) (he : e ∈ rowErrors fs row) : e ≠ emptyHistoryMsg := by
  rcases mem_rowErrors_shape fs row e he with ⟨c, rfl⟩ | ⟨a, b, rfl⟩ | ⟨a, rfl⟩ |
    ⟨a, rfl⟩ | ⟨a, rfl⟩ | ⟨a, rfl⟩ | ⟨a, b, rfl⟩ | ⟨a, rfl⟩
  · exact headNe _ 'I' rfl (by decide)
  · exact headNe _ 'I' rfl (by decide)
  · exact headNe _ 'L' rfl (by decide)
  · exact headNe _ 'S' rfl (by decide)
  · exact headNe _ 'S' rfl (by decide)
  · exact headNe _ 'S' rfl (by decide)
  · exact headNe _ 'S' rfl (by decide)
  · exact headNe _ 'A' rfl (by decide)

/-- C1 (counterexample): a Superseded row whose plan and target files exist,
whose plan text carries the Superseded marker, and whose TARGET file contains
the SOURCE plan path still yields one error, because the code requires the
source plan text to contain the target path — the claim predicts zero
errors here. -/
theorem claim1_counterexample :
    fsClaim1 "a.md" = some "# A **Lifecycle:** Superseded end" ∧
    fsClaim1 "b.md" = some "replaces docs/plans/a.md (a.md)" ∧
    containsStr "replaces docs/plans/a.md (a.md)" "a.md" = true ∧
    containsStr "# A **Lifecycle:** Superseded end" "**Lifecycle:** Superseded" = true ∧
    containsStr "# A **Lifecycle:** Superseded end" "b.md" = false ∧
    rowErrors fsClaim1 ["`a.md`", "Superseded", "`b.md`", "-"] =
      [unrefMsg "b.md" "a.md"] := by decide

/-- C1 (amended): for a Superseded row whose plan-path and superseded-by
cells parse, whose plan file exists and carries the Superseded marker, and
whose target file exists: the row yields zero errors exactly when the SOURCE
plan text contains the target path string, and otherwise yields exactly the
one unreferenced-supersession error. -/
theorem claim1_superseded_backref (fs : String → Option String)
    (planCell status supCell notes planRel supRel planText : String)
    (hpc : parse_code_path planCell = some planRel)
    (hpr : ¬(planRel = "" ∨ planRel = "-"))
    (hst : status = "Superseded")
    (hplan : fs planRel = some planText)
    (hmark : containsStr planText "**Lifecycle:** Superseded" = true)
    (hsc : parse_code_path supCell = some supRel)
    (hsr : ¬(supRel = "" ∨ supRel = "-"))
    (htgt : (fs supRel).isNone = false) :
    (containsStr planText supRel = true →
      rowErrors fs [planCell, status, supCell, notes] = []) ∧
    (containsStr planText supRel = false →
      rowErrors fs [planCell, status, supCell, notes] = [unrefMsg supRel planRel]) := by
  subst hst
  constructor <;> intro hc <;>
    simp [rowErrors, hpc, hpr, hplan, hsc, hsr, htgt, hmark, hc, LIFECYCLE_STATUSES]

/-- C1 witness: with the back-reference present in the source plan the row
yields zero errors. -/
theorem claim1_witness :
    rowErrors fsClaim1b ["`a.md`", "Superseded", "`b.md`", "-"] = [] :=
  (claim1_superseded_backref fsClaim1b "`a.md`" "Superseded" "`b.md`" "-"
    "a.md" "b.md" "**Lifecycle:** Superseded by docs/plans/b.md"
    (by decide) (by decide) rfl (by decide) (by decide) (by decide) (by decide)
    (by decide)).1 (by decide)

/-- C5 (counterexample): a table whose only row HAS status `Superseded` but
references a missing plan file still gets the aggregate empty-history error,
refuting the claimed "if and only if no row had status Superseded". -/
theorem claim5_counterexample :
    (["`a.md`", "Superseded", "`b.md`", "-"] : List String)[1]? = some "Superseded" ∧
    emptyHistoryMsg ∈
      validateLifecycleRows (fun _ => none) [["`a.md`", "Superseded", "`b.md`", "-"]] := by
  decide

/-- C5 (amended): the aggregate empty-history error is emitted iff no row
with a parsed plan path and an existing plan file has status `Superseded`;
and a table with a single Active row whose existing plan file lacks the
Active marker yields exactly the two errors MissingLifecycleMarker and
EmptyHistory. -/
theorem claim5_empty_history (fs : String → Option String) (rows : List (List String)) :
    (emptyHistoryMsg ∈ validateLifecycleRows fs rows ↔ rows.countP (rowSup fs) = 0) ∧
    (∀ planCell supCell notes planRel planText : String,
      parse_code_path planCell = some planRel → ¬(planRel = "" ∨ planRel = "-") →
      fs planRel = some planText →
      containsStr planText "**Lifecycle:** Active" = false →
      validateLifecycleRows fs [[planCell, "Active", supCell, notes]] =
        [activeMarkerMsg planRel, emptyHistoryMsg]) := by
  constructor
  · unfold validateLifecycleRows
    constructor
    · intro h
      rcases List.mem_append.mp h with hj | hi
      · exfalso
        rw [List.mem_flatten] at hj
        obtain ⟨l, hl, hel⟩ := hj
        obtain ⟨r, _, rfl⟩ := List.mem_map.mp hl
        exact rowErrorsNeEmptyHistory fs r _ hel rfl
      · by_cases hcnt : rows.countP (rowSup fs) = 0
        · exact hcnt
        · rw [if_neg hcnt] at hi
          simp at hi
    · intro hcnt
      rw [if_pos hcnt]
      simp
  · intro planCell supCell notes planRel planText hpc hpr hplan hmark
    unfold validateLifecycleRows
    simp [rowErrors, rowSup, hpc, hpr, hplan, hmark, LIFECYCLE_STATUSES]

/-- C5 witness: the Active-row scenario produces exactly the marker error
followed by the aggregate error. -/
theorem claim5_witness :
    validateLifecycleRows fsClaim5 [["`a.md`", "Active", "-", "n"]] =
      [activeMarkerMsg "a.md", emptyHistoryMsg] :=
  (claim5_empty_history fsClaim5 [["`a.md`", "Active", "-", "n"]]).2
    "`a.md`" "-" "n" "a.md" "# Plan A" (by decide) (by decide) (by decide) (by decide)


/-! ### C2: section bodies end at the extractor-specific terminator -/

theorem extractSectionEq (heading : String) (stop : String → Bool) :
    ∀ ls : List String,
      extractSection heading stop ls =
        (suffixAfter heading ls).map (fun suf => suf.takeWhile (fun x => !(stop x))) := by
  intro ls
  induction ls with
  | nil => rfl
  | cons l t ih =>
    unfold extractSection suffixAfter
    by_cases h : l = heading
    · rw [if_pos h, if_pos h]
      rfl
    · rw [if_neg h, if_neg h]
      exact ih

theorem dropTakeWhileLength {α : Type} (p : α → Bool) (l : List α) :
    l.drop (l.takeWhile p).length = l.dropWhile p := by
  induction l with
  | nil => rfl
  | cons a t ih =>
    by_cases h : p a
    · rw [List.takeWhile_cons_of_pos h, List.dropWhile_cons_of_pos h,
        List.length_cons, List.drop_succ_cons]
      exact ih
    · rw [List.takeWhile_cons_of_neg h, List.dropWhile_cons_of_neg h]
      rfl

theorem takeWhileBody (p : String → Bool) (suf : List String) :
    (∀ l ∈ suf.takeWhile p, p l = true) ∧
    suf.takeWhile p <+: suf ∧
    (∀ x, (suf.drop (suf.takeWhile p).length).head? = some x → p x = false) := by
  refine ⟨fun l hl => List.mem_takeWhile_imp hl, List.takeWhile_prefix p, ?_⟩
  intro x hx
  rw [dropTakeWhileLength] at hx
  exact dropWhileHead? p suf x hx

/-- C2 (counterexample): the Unreleased body runs past a rank-1 heading
(`# Top`), and the alignment-block body runs past a rank-2 heading
(`## Big`), although both are headings of strictly higher rank than the
matched section heading, which the claim says must terminate the body. -/
theorem claim2_counterexample :
    extract_unreleased ["## [Unreleased]", "- a", "# Top", "- b"] =
      some ["- a", "# Top", "- b"] ∧
    headingRank "# Top" = some 1 ∧ headingRank "## [Unreleased]" = some 2 ∧
    specSectionBody 2 ["- a", "# Top", "- b"] = ["- a"] ∧
    extractAlignBlock ["### Roadmap Alignment", "- a", "## Big", "- b"] =
      some ["- a", "## Big", "- b"] ∧
    headingRank "## Big" = some 2 ∧ headingRank "### Roadmap Alignment" = some 3 ∧
    specSectionBody 3 ["- a", "## Big", "- b"] = ["- a"] := by decide

/-- C2 (amended): each extractor's body starts immediately after the first
matched heading line and extends to just before the next line matching that
extractor's own terminator pattern (`## [` for the Unreleased section,
`### ` for the Roadmap Alignment block) or to end of text: no body line
matches the terminator, the body is a prefix of the lines following the
heading, and the first line after the body, when one exists, matches the
terminator. -/
theorem claim2_extraction (ls body : List String) :
    (extract_unreleased ls = some body →
      (∀ l ∈ body, stopUnreleased l = false) ∧
      ∀ suf, suffixAfter "## [Unreleased]" ls = some suf →
        body <+: suf ∧
        ∀ x, (suf.drop body.length).head? = some x → stopUnreleased x = true) ∧
    (extractAlignBlock ls = some body →
      (∀ l ∈ body, stopSubheading l = false) ∧
      ∀ suf, suffixAfter "### Roadmap Alignment" ls = some suf →
        body <+: suf ∧
        ∀ x, (suf.drop body.length).head? = some x → stopSubheading x = true) := by
  constructor
  · intro h
    rw [extract_unreleased, extractSectionEq] at h
    rcases hs : suffixAfter "## [Unreleased]" ls with _ | suf
    · rw [hs] at h
      simp at h
    · rw [hs] at h
      simp only [Option.map_some', Option.some.injEq] at h
      subst h
      obtain ⟨hmem, hpre, hnext⟩ := takeWhileBody (fun x => !(stopUnreleased x)) suf
      refine ⟨fun l hl => by simpa using hmem l hl, ?_⟩
      rintro suf2 hs2
      injection hs2 with hs2
      subst hs2
      exact ⟨hpre, fun x hx => by simpa using hnext x hx⟩
  · intro h
    rw [extractAlignBlock, extractSectionEq] at h
    rcases hs : suffixAfter "### Roadmap Alignment" ls with _ | suf
    · rw [hs] at h
      simp at h
    · rw [hs] at h
      simp only [Option.map_some', Option.some.injEq] at h
      subst h
      obtain ⟨hmem, hpre, hnext⟩ := takeWhileBody (fun x => !(stopSubheading x)) suf
      refine ⟨fun l hl => by simpa using hmem l hl, ?_⟩
      rintro suf2 hs2
      injection hs2 with hs2
      subst hs2
      exact ⟨hpre, fun x hx => by simpa using hnext x hx⟩

/-- C2 witness: on a concrete changelog the Unreleased body is the prefix
before the next `## [` line, and that next line matches the terminator. -/
theorem claim2_witness :
    (["- a", "- b"] : List String) <+: ["- a", "- b", "## [v1]", "z"] ∧
    stopUnreleased "## [v1]" = true := by
  have h := (claim2_extraction ["## [Unreleased]", "- a", "- b", "## [v1]", "z"]
    ["- a", "- b"]).1 (by decide)
  have h2 := h.2 ["- a", "- b", "## [v1]", "z"] (by decide)
  exact ⟨h2.1, h2.2 "## [v1]" (by decide)⟩


/-! ### C7: the renderer fails fast and never writes partial output -/

/-- C7: the generator entry point checks its preconditions in a fixed order
(changelog file, roadmap file, Unreleased section, roadmap metadata) and
returns the error of the first unmet one, producing no output; only when
every precondition holds does it produce the output path together with the
complete rendered document. -/
theorem claim7_generator_failfast (fs : String → Option (List String))
    (version changelogPath roadmapPath outputPath : String) :
    (fs changelogPath = none →
      gen_main fs version changelogPath roadmapPath outputPath =
        .error ("Missing file: " ++ changelogPath)) ∧
    (∀ changelog, fs changelogPath = some changelog → fs roadmapPath = none →
      gen_main fs version changelogPath roadmapPath outputPath =
        .error ("Missing file: " ++ roadmapPath)) ∧
    (∀ changelog roadmap, fs changelogPath = some changelog →
      fs roadmapPath = some roadmap → extract_unreleased changelog = none →
      gen_main fs version changelogPath roadmapPath outputPath =
        .error missingUnreleasedMsg) ∧
    (∀ changelog roadmap unreleased, fs changelogPath = some changelog →
      fs roadmapPath = some roadmap → extract_unreleased changelog = some unreleased →
      (roadmap.findSome? currentPhaseValue? = none ∨
        roadmap.findSome? lastUpdatedValue? = none) →
      gen_main fs version changelogPath roadmapPath outputPath =
        .error metaIncompleteMsg) ∧
    (∀ changelog roadmap unreleased roadmapPhase roadmapLastUpdated,
      fs changelogPath = some changelog → fs roadmapPath = some roadmap →
      extract_unreleased changelog = some unreleased →
      roadmap.findSome? currentPhaseValue? = some roadmapPhase →
      roadmap.findSome? lastUpdatedValue? = some roadmapLastUpdated →
      gen_main fs version changelogPath roadmapPath outputPath =
        .ok (outputPath,
          render_release_notes version roadmapPhase roadmapLastUpdated
            (collect_section_items unreleased))) := by
  refine ⟨?_, ?_, ?_, ?_, ?_⟩
  · intro h
    simp [gen_main, h]
  · intro changelog h1 h2
    simp [gen_main, h1, h2]
  · intro changelog roadmap h1 h2 h3
    simp [gen_main, h1, h2, h3]
  · intro changelog roadmap unreleased h1 h2 h3 h4
    rcases h4 with h4 | h4
    · simp [gen_main, h1, h2, h3, h4]
    · rcases hp : roadmap.findSome? currentPhaseValue? with _ | ph <;>
        simp [gen_main, h1, h2, h3, h4, hp]
  · intro changelog roadmap unreleased roadmapPhase roadmapLastUpdated h1 h2 h3 h4 h5
    simp [gen_main, h1, h2, h3, h4, h5]

/-- C7 witness: with a changelog lacking an Unreleased section AND a roadmap
lacking both metadata fields, the run fails with the Unreleased error (the
first unmet precondition in check order) and produces no output. -/
theorem claim7_witness :
    gen_main fsClaim7 "v1" "CHANGELOG.md" "roadmap.md" "out.md" =
      .error missingUnreleasedMsg :=
  (claim7_generator_failfast fsClaim7 "v1" "CHANGELOG.md" "roadmap.md" "out.md").2.2.1
    ["# Changelog", "nothing released"] ["no metadata here"]
    (by decide) (by decide) (by decide)


/-! ### C6: rendering — helper lemmas -/

theorem headNonWSAppend (u w : List Char) (hu : u ≠ []) :
    headNonWS (u ++ w) = headNonWS u := by
  cases u with
  | nil => exact absurd rfl hu
  | cons c t => rfl

theorem endsOkNeNil (s : String) (h : endsOk s = true) : s.data ≠ [] := by
  intro hnil
  rw [endsOk, hnil] at h
  simp [headNonWS] at h

theorem endsOkAppend (a b : String) (hb : b.data ≠ []) :
    endsOk (a ++ b) = endsOk b := by
  unfold endsOk
  rw [strDataAppend, List.reverse_append]
  exact headNonWSAppend _ _ (by simpa using hb)

theorem pyRstripNewline (s : String) : pyRstrip (s ++ "\n") = pyRstrip s := by
  unfold pyRstrip rstripL
  congr 1
  rw [strDataAppend]
  have h2 : ('\n').isWhitespace = true := by decide
  have h3 : ("\n" : String).data = ['\n'] := rfl
  rw [h3, List.reverse_append]
  simp [List.dropWhile_cons, h2]

theorem pyRstripEndsOk (s : String) (h : endsOk s = true) : pyRstrip s = s := by
  refine String.ext ?_
  show rstripL s.data = s.data
  unfold rstripL
  unfold endsOk at h
  rcases hrev : s.data.reverse with _ | ⟨c, t⟩
  · rw [hrev] at h
    simp [headNonWS] at h
  · rw [hrev] at h
    simp only [headNonWS] at h
    rw [List.dropWhile_cons_of_neg (by simpa using h)]
    rw [← hrev, List.reverse_reverse]

theorem trailingNLOne (s : String) (h : endsOk s = true) :
    trailingNLCount (s ++ "\n") = 1 := by
  unfold trailingNLCount
  rw [strDataAppend]
  have h3 : ("\n" : String).data = ['\n'] := rfl
  rw [h3, List.reverse_append]
  unfold endsOk at h
  rcases hrev : s.data.reverse with _ | ⟨c, t⟩
  · rw [hrev] at h
    simp [headNonWS] at h
  · rw [hrev] at h
    simp only [headNonWS] at h
    have hc : ¬(c = '\n') := by
      intro hcc
      subst hcc
      simp at h
    simp [List.takeWhile_cons, hc]

theorem joinNLAppendSingle : ∀ (M : List String) (x : String), M ≠ [] →
    joinNL (M ++ [x]) = joinNL M ++ "\n" ++ x := by
  intro M
  induction M with
  | nil => intro x h; exact absurd rfl h
  | cons a t ih =>
    intro x _
    rcases t with _ | ⟨b, t2⟩
    · rfl
    · have ihx := ih x (by simp)
      show joinNL (a :: ((b :: t2) ++ [x])) = joinNL (a :: b :: t2) ++ "\n" ++ x
      simp only [List.cons_append, joinNL] at ihx ⊢
      simp [ihx, String.append_assoc]

theorem joinNLEndsOk : ∀ (M : List String) (x : String), x.data ≠ [] →
    endsOk x = true → endsOk (joinNL (M ++ [x])) = true := by
  intro M
  induction M with
  | nil =>
    intro x _ hx2
    simpa [joinNL] using hx2
  | cons a t ih =>
    intro x hx1 hx2
    have ihx := ih x hx1 hx2
    rcases ht : t ++ [x] with _ | ⟨y, u⟩
    · exact absurd ht (by simp)
    · show endsOk (joinNL (a :: (t ++ [x]))) = true
      rw [ht]
      simp only [joinNL]
      rw [ht] at ihx
      have hne : (joinNL (y :: u)).data ≠ [] := endsOkNeNil _ ihx
      rw [endsOkAppend _ _ hne]
      exact ihx

theorem headNonWSDropWhile : ∀ L : List Char,
    L.dropWhile Char.isWhitespace ≠ [] →
    headNonWS (L.dropWhile Char.isWhitespace) = true := by
  intro L
  induction L with
  | nil => intro h; exact absurd rfl h
  | cons c t ih =>
    intro h
    by_cases hc : c.isWhitespace = true
    · rw [List.dropWhile_cons_of_pos hc] at h ⊢
      exact ih h
    · rw [List.dropWhile_cons_of_neg hc] at h ⊢
      simpa [headNonWS] using hc

theorem pyRstripEndsOkOfNeNil (s : String) (h : (pyRstrip s).data ≠ []) :
    endsOk (pyRstrip s) = true := by
  unfold endsOk
  show headNonWS (rstripL s.data).reverse = true
  unfold rstripL
  rw [List.reverse_reverse]
  apply headNonWSDropWhile
  intro hnil
  apply h
  show rstripL s.data = []
  unfold rstripL
  rw [hnil]
  rfl

theorem isBulletNeNil (l : String) (h : isBullet l = true) : l.data ≠ [] := by
  intro hnil
  rw [isBullet, hnil] at h
  simp [List.dropWhile] at h

/-- Invariant of the collection loop: every stored bullet line is non-empty
and ends in a non-whitespace character (it is an rstripped bullet). -/
theorem collectLoopInv : ∀ (ls : List String) (cur : Option String)
    (items : String → List String),
    (∀ sec line, line ∈ items sec → endsOk line = true ∧ line.data ≠ []) →
    ∀ sec line, line ∈ collectLoop cur items ls sec →
      endsOk line = true ∧ line.data ≠ [] := by
  intro ls
  induction ls with
  | nil =>
    intro cur items h sec line hl
    exact h sec line hl
  | cons raw rest ih =>
    intro cur items h sec line hl
    rcases hh : headingOf (pyRstrip raw) with _ | hd
    · rcases cur with _ | cs
      · simp only [collectLoop, hh] at hl
        exact ih none items h sec line hl
      · by_cases hb : isBullet (pyRstrip raw) = true
        · simp only [collectLoop, hh, hb, if_pos] at hl
          refine ih (some cs) _ ?_ sec line hl
          intro sec2 line2 hl2
          unfold updateItems at hl2
          by_cases hsec2 : sec2 = cs
          · rw [if_pos hsec2] at hl2
            rcases List.mem_append.mp hl2 with hold | hnew
            · exact h sec2 line2 hold
            · have hline : line2 = pyRstrip raw := by simpa using hnew
              subst hline
              have hne := isBulletNeNil _ hb
              exact ⟨pyRstripEndsOkOfNeNil raw hne, hne⟩
          · rw [if_neg hsec2] at hl2
            exact h sec2 line2 hl2
        · simp only [collectLoop, hh, hb, if_neg] at hl
          exact ih (some cs) items h sec line hl
    · simp only [collectLoop, hh] at hl
      exact ih _ items h sec line hl


/-- Every collected bullet line is rstripped and non-empty. -/
theorem collectItemsOk (ls : List String) (sec line : String)
    (h : line ∈ collect_section_items ls sec) :
    endsOk line = true ∧ line.data ≠ [] :=
  collectLoopInv ls none (fun _ => []) (by simp) sec line h

theorem subSkip {α : Type} (a : List α) {l r : List α} (h : l.Sublist r) :
    l.Sublist (a ++ r) := by
  induction a with
  | nil => exact h
  | cons x a2 ih => exact List.Sublist.cons x ih

/-- The six category headings appear in `SECTIONS` order in the flattened
section blocks. -/
theorem headsSublistFlatten (secs : List String) (items : String → List String) :
    (secs.map (fun s => "### " ++ s)).Sublist
      ((secs.map (sectionBlock items)).flatten) := by
  induction secs with
  | nil => simp
  | cons s t ih =>
    simp only [List.map_cons, List.flatten_cons]
    show (("### " ++ s) :: t.map (fun s => "### " ++ s)).Sublist
      ((("### " ++ s) :: ((if items s = [] then ["- None"] else items s) ++ [""])) ++
        (t.map (sectionBlock items)).flatten)
    rw [List.cons_append]
    exact List.cons_sublist_cons.mpr (subSkip _ ih)

/-- Each section's block occurs as a contiguous segment of the flattened
blocks. -/
theorem segInFlatten (items : String → List String) (s : String) :
    ∀ secs : List String, s ∈ secs →
      ∃ a b, (secs.map (sectionBlock items)).flatten =
        a ++ (sectionBlock items s ++ b) := by
  intro secs
  induction secs with
  | nil =>
    intro hs
    simp at hs
  | cons x t ih =>
    intro hs
    rcases List.mem_cons.mp hs with rfl | hs2
    · exact ⟨[], (t.map (sectionBlock items)).flatten, by simp⟩
    · obtain ⟨a, b, hab⟩ := ih hs2
      refine ⟨sectionBlock items x ++ a, b, ?_⟩
      simp [hab, List.append_assoc]

/-- The rendered output resolves to the joined line list: the final
`rstrip() + "\n"` leaves exactly one trailing newline. -/
theorem renderResolved (v p d : String) (items : String → List String)
    (hSec : ∀ line ∈ items "Security", endsOk line = true ∧ line.data ≠ []) :
    render_release_notes v p d items = joinNL (renderLines v p d items) ∧
    trailingNLCount (render_release_notes v p d items) = 1 := by
  obtain ⟨M, hM, hMne, hMend⟩ :
      ∃ M : List String, renderLines v p d items = M ++ [""] ∧ M ≠ [] ∧
        endsOk (joinNL M) = true := by
    refine ⟨preambleLines v p d ++
      ((["Added", "Changed", "Deprecated", "Removed", "Fixed"].map
        (sectionBlock items)).flatten) ++
      (("### " ++ "Security") :: (if items "Security" = [] then ["- None"]
        else items "Security")), ?_, by simp [preambleLines], ?_⟩
    · show renderLines v p d items = _
      simp [renderLines, SECTIONS, sectionBlock, preambleLines, List.append_assoc]
    · by_cases hS : items "Security" = []
      · rw [show (preambleLines v p d ++
            ((["Added", "Changed", "Deprecated", "Removed", "Fixed"].map
              (sectionBlock items)).flatten) ++
            (("### " ++ "Security") :: (if items "Security" = [] then ["- None"]
              else items "Security"))) =
            ((preambleLines v p d ++
              (["Added", "Changed", "Deprecated", "Removed", "Fixed"].map
                (sectionBlock items)).flatten) ++ ["### " ++ "Security"]) ++
              ["- None"] from by simp [hS, List.append_assoc]]
        exact joinNLEndsOk _ _ (by decide) (by decide)
      · have hlast := List.dropLast_append_getLast hS
        rw [show (preambleLines v p d ++
            ((["Added", "Changed", "Deprecated", "Removed", "Fixed"].map
              (sectionBlock items)).flatten) ++
            (("### " ++ "Security") :: (if items "Security" = [] then ["- None"]
              else items "Security"))) =
            ((preambleLines v p d ++
              (["Added", "Changed", "Deprecated", "Removed", "Fixed"].map
                (sectionBlock items)).flatten) ++
              ("### " ++ "Security") :: (items "Security").dropLast) ++
              [(items "Security").getLast hS] from by
          rw [if_neg hS]
          conv_lhs => rw [← hlast]
          simp [List.append_assoc]]
        have hmem := hSec ((items "Security").getLast hS) (List.getLast_mem hS)
        exact joinNLEndsOk _ _ hmem.2 hmem.1
  unfold render_release_notes
  rw [hM, joinNLAppendSingle M "" hMne, String.append_empty, pyRstripNewline,
    pyRstripEndsOk _ hMend]
  exact ⟨rfl, trailingNLOne _ hMend⟩


/-- C6: for every changelog input, the rendered output is exactly the joined
line list (so the trailing `rstrip` plus `"\n"` leaves exactly one trailing
newline, regardless of trailing whitespace in the inputs); the six category
headings appear in the fixed canonical order regardless of their order in
the changelog; and each category heading is followed contiguously by its
collected bullet lines verbatim, or by the single line `- None` when its
bucket is empty. -/
theorem claim6_render (v p d : String) (ls : List String) :
    render_release_notes v p d (collect_section_items ls) =
      joinNL (renderLines v p d (collect_section_items ls)) ∧
    (SECTIONS.map (fun s => "### " ++ s)).Sublist
      (renderLines v p d (collect_section_items ls)) ∧
    trailingNLCount (render_release_notes v p d (collect_section_items ls)) = 1 ∧
    (∀ sec ∈ SECTIONS, collect_section_items ls sec = [] →
      segIn ["### " ++ sec, "- None"] (renderLines v p d (collect_section_items ls))) ∧
    (∀ sec ∈ SECTIONS, collect_section_items ls sec ≠ [] →
      segIn (("### " ++ sec) :: collect_section_items ls sec)
        (renderLines v p d (collect_section_items ls))) := by
  have hres := renderResolved v p d (collect_section_items ls)
    (fun line hl => collectItemsOk ls "Security" line hl)
  refine ⟨hres.1, ?_, hres.2, ?_, ?_⟩
  · show (SECTIONS.map (fun s => "### " ++ s)).Sublist
      (preambleLines v p d ++
        (SECTIONS.map (sectionBlock (collect_section_items ls))).flatten)
    exact subSkip _ (headsSublistFlatten SECTIONS (collect_section_items ls))
  · intro sec hsec hemp
    obtain ⟨a, b, hab⟩ := segInFlatten (collect_section_items ls) sec SECTIONS hsec
    refine ⟨preambleLines v p d ++ a, "" :: b, ?_⟩
    show preambleLines v p d ++
      (SECTIONS.map (sectionBlock (collect_section_items ls))).flatten = _
    rw [hab]
    have hblock : sectionBlock (collect_section_items ls) sec =
        ["### " ++ sec, "- None"] ++ [""] := by
      simp [sectionBlock, hemp]
    rw [hblock]
    simp [List.append_assoc]
  · intro sec hsec hne
    obtain ⟨a, b, hab⟩ := segInFlatten (collect_section_items ls) sec SECTIONS hsec
    refine ⟨preambleLines v p d ++ a, "" :: b, ?_⟩
    show preambleLines v p d ++
      (SECTIONS.map (sectionBlock (collect_section_items ls))).flatten = _
    rw [hab]
    have hblock : sectionBlock (collect_section_items ls) sec =
        (("### " ++ sec) :: collect_section_items ls sec) ++ [""] := by
      simp [sectionBlock, hne]
    rw [hblock]
    simp [List.append_assoc]

/-- C6 witness: with bullets only under Fixed and Security, the output is
the resolved joined line list and the empty Added category renders as
`### Added` followed by `- None`. -/
theorem claim6_witness :
    render_release_notes "v0.3.0" "M3" "2024-05-01"
        (collect_section_items ["### Fixed", "- f1", "### Security", "- s1"]) =
      joinNL (renderLines "v0.3.0" "M3" "2024-05-01"
        (collect_section_items ["### Fixed", "- f1", "### Security", "- s1"])) ∧
    segIn ["### " ++ "Added", "- None"]
      (renderLines "v0.3.0" "M3" "2024-05-01"
        (collect_section_items ["### Fixed", "- f1", "### Security", "- s1"])) :=
  ⟨(claim6_render "v0.3.0" "M3" "2024-05-01"
      ["### Fixed", "- f1", "### Security", "- s1"]).1,
   (claim6_render "v0.3.0" "M3" "2024-05-01"
      ["### Fixed", "- f1", "### Security", "- s1"]).2.2.2.1
     "Added" (by decide) (by decide)⟩

end Canis
